import Mathlib

/-!
# EchoPay fraud-detection service: verification of the analysis endpoint

Shallow embedding of `services/fraud-detection/src/main.py`: the transaction
analysis endpoint `analyze_transaction`, the local helpers
`_calculate_rule_based_score`, `_extract_simple_risk_factors` and
`_get_user_transaction_history`, and (where the repository's risk-engine
module is consumed but its source is not available) a model of the risk
engine taken from the specification.

Python `float` arithmetic is embedded as exact rational arithmetic (`ℚ`);
Python dictionaries with `.get(key, default)` access are embedded as records
with `Option` fields read through `Option.getD`.
-/

namespace EchoPay

/-- The `transaction_data` dictionary built in `analyze_transaction`
(main.py lines 145-153).  `_calculate_rule_based_score` accepts arbitrary
dictionaries, so the `amount` key may be absent (`none`); the remaining
keys are carried to state noninterference results. -/
structure TransactionData where
  transactionId : String
  amount : Option ℚ
  timestamp : String
  toWallet : String
  fromWallet : String
  currency : String
  metadata : List (String × String)
deriving DecidableEq

/-- The `transaction_context` dictionary built in `analyze_transaction`
(main.py lines 156-163).  All keys are optional since the helper functions
read them through `.get(key, default)`. -/
structure TransactionContext where
  amount : Option ℚ
  user_id : String
  user_age_days : Option ℚ
  recent_transactions_1h : Option ℚ
  is_new_location : Option Bool
  currency : String
deriving DecidableEq

/-- The `component_scores` dictionary of `analyze_transaction`: by line 210
of main.py all four keys are always present, so it is embedded as a total
record. -/
structure ComponentScores where
  behavioral : ℚ
  graph : ℚ
  anomaly : ℚ
  rule_based : ℚ
deriving DecidableEq

/-- The raw additive point total of `_calculate_rule_based_score`
(main.py lines 275-302): the sequence of `score += c` statements is the sum
of the guarded increments, in source order. -/
def raw_rule_based_score (transaction_data : TransactionData)
    (transaction_context : TransactionContext) : ℚ :=
  let amount := transaction_data.amount.getD 0
  -- High amount transactions
  (if amount > 10000 then 3/10 else if amount > 1000 then 1/10 else 0) +
  -- Very small amounts (potential testing)
  (if 0 < amount ∧ amount < 1 then 2/10 else 0) +
  -- High velocity
  (let recent_tx := transaction_context.recent_transactions_1h.getD 0
   if recent_tx > 10 then 4/10 else if recent_tx > 5 then 2/10 else 0) +
  -- New location
  (if transaction_context.is_new_location.getD false then 2/10 else 0) +
  -- New user with high activity
  (let user_age := transaction_context.user_age_days.getD 365
   if user_age < 7 ∧ amount > 1000 then 3/10 else 0)

/-- `_calculate_rule_based_score` (main.py lines 272-304): the raw point
total clamped by `min(1.0, score)`.  A pure function of its two arguments:
no detector state, no training. -/
def calculate_rule_based_score (transaction_data : TransactionData)
    (transaction_context : TransactionContext) : ℚ :=
  min 1 (raw_rule_based_score transaction_data transaction_context)

/-- `_extract_simple_risk_factors` (main.py lines 306-332): the sequence of
conditional `factors.append` calls, in source order.  (The component-score
lookups use `.get(key, 0)` in the source; the keys are always present at
the call site, so the record fields are read directly.) -/
def extract_simple_risk_factors (component_scores : ComponentScores)
    (transaction_context : TransactionContext) : List String :=
  (if component_scores.behavioral > 7/10 then ["unusual_behavior"] else []) ++
  (if component_scores.graph > 6/10 then ["suspicious_network"] else []) ++
  (if component_scores.anomaly > 8/10 then ["transaction_anomaly"] else []) ++
  (if component_scores.rule_based > 1/2 then ["rule_violation"] else []) ++
  (let amount := transaction_context.amount.getD 0
   if amount > 10000 then ["high_amount"]
   else if amount < 1 then ["micro_amount"] else []) ++
  (if transaction_context.recent_transactions_1h.getD 0 > 10
   then ["high_velocity"] else []) ++
  (if transaction_context.is_new_location.getD false
   then ["new_location"] else [])

/-- Outcome of one `redis_client.get` call observed by
`_get_user_transaction_history`: the call either raises, or returns the
cached payload (`none` embeds Python `None`, i.e. a cache miss). -/
inductive CacheGetOutcome where
  | raises
  | value (payload : Option String)
deriving DecidableEq

/-- The module-level `redis_client` together with the behaviour of its
`get` call: `none` embeds `redis_client is None`. -/
structure CacheEnv where
  client : Option CacheGetOutcome
deriving DecidableEq

/-- `_get_user_transaction_history` (main.py lines 257-270).  `decode`
embeds `json.loads` on the cached string: `none` when parsing raises (the
exception is caught by the surrounding `except`).  An empty payload string
is falsy in Python, so it skips the `if cached_history:` branch.  Every
path ends in a returned list; no cache error escapes. -/
def get_user_transaction_history (decode : String → Option (List ℚ))
    (env : CacheEnv) : List ℚ :=
  match env.client with
  | none => []
  | some .raises => []
  | some (.value none) => []
  | some (.value (some cached_history)) =>
      if cached_history = "" then []
      else match decode cached_history with
        | none => []
        | some history => history

/-- Outcome of one optional ML collaborator inside `analyze_transaction`:
the module-level service object is `None` (`absent`), the call raises
(`fails`), or the call returns a score. -/
inductive ServiceOutcome where
  | absent
  | fails
  | returns (score : ℚ)
deriving DecidableEq

/-- The risk-assessment record consumed from
`risk_engine.assess_transaction_risk`; `analyze_transaction` reads its
overall score and risk factors (the action and confidence are only
logged). -/
structure RiskAssessmentResult where
  overall_risk_score : ℚ
  risk_factors : List String
deriving DecidableEq

/-- Outcome of the module-level `risk_engine` and its
`assess_transaction_risk` call: object absent, call raises, or call
returns an assessment. -/
inductive EngineOutcome where
  | absent
  | fails
  | assesses (assessment : RiskAssessmentResult)
deriving DecidableEq

/-- The collaborator state one `analyze_transaction` invocation observes:
the behavioral, graph and anomaly services and the risk engine.  (The
cache is consulted only inside the anomaly branch, whose combined outcome
is `anomaly`.) -/
structure AnalysisEnv where
  behavioral : ServiceOutcome
  graph : ServiceOutcome
  anomaly : ServiceOutcome
  riskEngine : EngineOutcome
deriving DecidableEq

/-- The request body of `POST /api/v1/analyze` (main.py lines 65-72).  The
three `userContext` keys read by the handler are embedded as optional
fields; remaining context entries only flow into `metadata`. -/
structure TransactionAnalysisRequest where
  transactionId : String
  fromWallet : String
  toWallet : String
  amount : ℚ
  currency : String
  timestamp : String
  uc_user_age_days : Option ℚ
  uc_recent_transactions_1h : Option ℚ
  uc_is_new_location : Option Bool
  uc_other : List (String × String)
deriving DecidableEq

/-- The `transaction_data` dictionary built from the request
(main.py lines 145-153). -/
def transaction_data_of (request : TransactionAnalysisRequest) : TransactionData :=
  { transactionId := request.transactionId
    amount := some request.amount
    timestamp := request.timestamp
    toWallet := request.toWallet
    fromWallet := request.fromWallet
    currency := request.currency
    metadata := request.uc_other }

/-- The `transaction_context` dictionary built from the request
(main.py lines 156-163); the `.get` defaults 365, 0 and False are applied
here, as in the source. -/
def transaction_context_of (request : TransactionAnalysisRequest) : TransactionContext :=
  { amount := some request.amount
    user_id := request.fromWallet
    user_age_days := some (request.uc_user_age_days.getD 365)
    recent_transactions_1h := some (request.uc_recent_transactions_1h.getD 0)
    is_new_location := some (request.uc_is_new_location.getD false)
    currency := request.currency }

/-- The `component_scores` dictionary after lines 166-209 of main.py: each
ML component falls back to its default (behavioral 0.5, graph 0.1,
anomaly 0.15) when its service object is `None` or its call raises;
`rule_based` is always computed locally. -/
def component_scores_of (env : AnalysisEnv) (transaction_data : TransactionData)
    (transaction_context : TransactionContext) : ComponentScores :=
  { behavioral :=
      match env.behavioral with
      | .absent => 1/2
      | .fails => 1/2
      | .returns s => s
    graph :=
      match env.graph with
      | .absent => 1/10
      | .fails => 1/10
      | .returns s => s
    anomaly :=
      match env.anomaly with
      | .absent => 3/20
      | .fails => 3/20
      | .returns s => s
    rule_based := calculate_rule_based_score transaction_data transaction_context }

/-- The fallback weighted average of lines 230-235 of main.py, used when
the risk engine is unavailable.  (The `.get` defaults in the source are
dead at this point: all four keys were set by line 210.) -/
def fallback_overall (component_scores : ComponentScores) : ℚ :=
  component_scores.behavioral * (35/100) +
  component_scores.graph * (30/100) +
  component_scores.anomaly * (25/100) +
  component_scores.rule_based * (10/100)

/-- Python's `round(x, 3)` on the endpoint's scores.  Embedded as rounding
the exact rational to the nearest thousandth; the binary-float tie-breaking
of CPython at exact half-thousandths is not modelled (no claim touches such
a tie). -/
def round3 (q : ℚ) : ℚ :=
  (round (q * 1000) : ℚ) / 1000

/-- The `RiskScore` response model (main.py lines 74-81), minus the server
timestamp (wall-clock, not modelled). -/
structure RiskScoreResult where
  transactionId : String
  overallScore : ℚ
  behavioralScore : ℚ
  graphScore : ℚ
  anomalyScore : ℚ
  riskFactors : List String
deriving DecidableEq

/-- What the caller of `POST /api/v1/analyze` observes: a response body or
an `HTTPException` with a status code and detail string. -/
inductive AnalysisResponse where
  | ok (result : RiskScoreResult)
  | httpError (status : Nat) (detail : String)
deriving DecidableEq

/-- The internal `(overall_score, risk_factors)` pair of
`analyze_transaction` (main.py lines 211-237), before rounding: taken from
the risk engine's assessment when the engine is present and its call
succeeds, from the fallback weighted average and
`_extract_simple_risk_factors` when the engine is absent, and undefined
(`none`, the raised exception) when the engine's call raises. -/
def overall_and_factors (env : AnalysisEnv) (component_scores : ComponentScores)
    (transaction_context : TransactionContext) : Option (ℚ × List String) :=
  match env.riskEngine with
  | .assesses a => some (a.overall_risk_score, a.risk_factors)
  | .fails => none
  | .absent =>
      some (fallback_overall component_scores,
            extract_simple_risk_factors component_scores transaction_context)

/-- `analyze_transaction` (main.py lines 134-255).  Component collection
(lines 166-209) absorbs per-component failures; an exception escaping the
remaining body — here, the risk engine's `assess_transaction_risk` call
raising — reaches the outer `except` of lines 253-255, which answers with
`HTTPException(status_code=500, detail="Analysis service error")`. -/
def analyze_transaction (env : AnalysisEnv)
    (request : TransactionAnalysisRequest) : AnalysisResponse :=
  let transaction_data := transaction_data_of request
  let transaction_context := transaction_context_of request
  let component_scores := component_scores_of env transaction_data transaction_context
  match overall_and_factors env component_scores transaction_context with
  | none => .httpError 500 "Analysis service error"
  | some (overall_score, risk_factors) =>
      .ok { transactionId := request.transactionId
            overallScore := round3 overall_score
            behavioralScore := round3 component_scores.behavioral
            graphScore := round3 component_scores.graph
            anomalyScore := round3 component_scores.anomaly
            riskFactors := risk_factors }

/-- Enforcement actions of the decision engine (spec §4.4). -/
inductive TransactionAction where
  | approve
  | flag
  | hold
  | block
deriving DecidableEq

/-- Strictness order on actions: approve < flag < hold < block. -/
def actionStrictness : TransactionAction → Nat
  | .approve => 0
  | .flag => 1
  | .hold => 2
  | .block => 3

/-- Modelled from the spec: `models/risk_engine.py` (the
`RiskScoreCalculator` consumed by `analyze_transaction`) is not under
`src/`.  Spec §4.4: "computes a weighted sum of {behavioral, graph,
anomaly, rule_based} using configurable weights (default: behavioral 0.35,
graph 0.30, anomaly 0.25, rule_based 0.10)". -/
def spec_ensemble_score (component_scores : ComponentScores) : ℚ :=
  (35/100) * component_scores.behavioral +
  (30/100) * component_scores.graph +
  (25/100) * component_scores.anomaly +
  (10/100) * component_scores.rule_based

/-- Modelled from the spec: the decision engine of `models/risk_engine.py`
is not under `src/`.  Spec §4.4 built-in default rules:
"overall_risk_score > 0.9 ⇒ block; >0.7 ⇒ hold; >0.4 ⇒ flag; else ⇒
approve". -/
def spec_decision (overall_risk_score : ℚ) : TransactionAction :=
  if overall_risk_score > 9/10 then .block
  else if overall_risk_score > 7/10 then .hold
  else if overall_risk_score > 4/10 then .flag
  else .approve

/-! ## Concrete fixtures used by counterexamples and witnesses -/

/-- A baseline `transaction_data` dictionary with no `amount` key. -/
def tdBase : TransactionData :=
  { transactionId := "tx_1", amount := none, timestamp := "2026-10-12T10:00:00Z",
    toWallet := "wallet_b", fromWallet := "wallet_a", currency := "USD-CBDC",
    metadata := [] }

/-- A baseline `transaction_context` dictionary with every optional key
absent (so every `.get` default applies). -/
def ctxBase : TransactionContext :=
  { amount := none, user_id := "wallet_a", user_age_days := none,
    recent_transactions_1h := none, is_new_location := none,
    currency := "USD-CBDC" }

/-- `transaction_data` with the micro amount 0.50. -/
def td_half : TransactionData := { tdBase with amount := some (1/2) }

/-- `transaction_data` with the unremarkable amount 2.00. -/
def td_two : TransactionData := { tdBase with amount := some 2 }

/-- `transaction_data` with amount exactly 0. -/
def td_zero : TransactionData := { tdBase with amount := some 0 }

/-- `transaction_context` with amount exactly 0 and no other keys. -/
def ctx_zero : TransactionContext := { ctxBase with amount := some 0 }

/-- `transaction_data` for the saturation input: amount 20000. -/
def td_sat : TransactionData := { tdBase with amount := some 20000 }

/-- `transaction_context` for the saturation input: 11 transactions in the
last hour, a new location, a 3-day-old account. -/
def ctx_sat : TransactionContext :=
  { ctxBase with recent_transactions_1h := some 11, is_new_location := some true, user_age_days := some 3 }

/-! ## Helper lemmas about the individual rule increments -/

/-- The high-amount increment is monotone in the amount. -/
lemma high_amount_term_mono {a₁ a₂ : ℚ} (h : a₁ ≤ a₂) :
    (if a₁ > 10000 then (3/10 : ℚ) else if a₁ > 1000 then 1/10 else 0) ≤
      (if a₂ > 10000 then (3/10 : ℚ) else if a₂ > 1000 then 1/10 else 0) := by
  split_ifs <;> linarith

/-- The micro-amount increment vanishes at or above amount 1. -/
lemma micro_term_eq_zero {a : ℚ} (h : 1 ≤ a) :
    (if 0 < a ∧ a < 1 then (2/10 : ℚ) else 0) = 0 := by
  rw [if_neg]
  rintro ⟨-, hlt⟩
  linarith

/-- The velocity increment is monotone in the recent-transaction count. -/
lemma velocity_term_mono {r₁ r₂ : ℚ} (h : r₁ ≤ r₂) :
    (if r₁ > 10 then (4/10 : ℚ) else if r₁ > 5 then 2/10 else 0) ≤
      (if r₂ > 10 then (4/10 : ℚ) else if r₂ > 5 then 2/10 else 0) := by
  split_ifs <;> linarith

/-- The new-user increment is monotone in the amount. -/
lemma new_user_term_mono {g a₁ a₂ : ℚ} (h : a₁ ≤ a₂) :
    (if g < 7 ∧ a₁ > 1000 then (3/10 : ℚ) else 0) ≤
      (if g < 7 ∧ a₂ > 1000 then (3/10 : ℚ) else 0) := by
  by_cases h₂ : g < 7 ∧ a₂ > 1000
  · rw [if_pos h₂]
    split_ifs <;> norm_num
  · rw [if_neg h₂, if_neg fun h₁ => h₂ ⟨h₁.1, lt_of_lt_of_le h₁.2 h⟩]

/-! ## Claim C1: monotonicity of the rule-based score -/

/-- C1 (counterexample).  The claim "increasing the transaction amount
while holding everything else fixed never decreases the rule-based score"
fails: raising the amount from 0.50 to 2.00 (identical otherwise) drops
the score from 0.2 to 0, because the micro-amount heuristic
(`0 < amount < 1`) stops firing. -/
theorem claim_C1_counterexample :
    td_half.amount = some (1/2) ∧ td_two.amount = some 2 ∧
    calculate_rule_based_score td_half ctxBase = 1/5 ∧
    calculate_rule_based_score td_two ctxBase = 0 ∧
    ¬ calculate_rule_based_score td_half ctxBase ≤
        calculate_rule_based_score td_two ctxBase := by
  refine ⟨rfl, rfl, ?_, ?_, ?_⟩ <;>
    norm_num [calculate_rule_based_score, raw_rule_based_score, td_half,
      td_two, tdBase, ctxBase]

/-- C1 (amended).  `_calculate_rule_based_score` is monotone in the
`recent_transactions_1h` velocity count unconditionally, and monotone in
the transaction amount whenever both amounts are at least 1 (outside the
micro-amount band `0 < amount < 1`, whose increment is lost when the
amount crosses 1). -/
theorem claim_C1_monotonicity_amended :
    (∀ (td : TransactionData) (ctx : TransactionContext) (r₁ r₂ : ℚ),
      r₁ ≤ r₂ →
      calculate_rule_based_score td { ctx with recent_transactions_1h := some r₁ } ≤
        calculate_rule_based_score td { ctx with recent_transactions_1h := some r₂ }) ∧
    (∀ (td : TransactionData) (ctx : TransactionContext) (a₁ a₂ : ℚ),
      1 ≤ a₁ → a₁ ≤ a₂ →
      calculate_rule_based_score { td with amount := some a₁ } ctx ≤
        calculate_rule_based_score { td with amount := some a₂ } ctx) := by
  constructor
  · intro td ctx r₁ r₂ h
    unfold calculate_rule_based_score
    apply min_le_min le_rfl
    unfold raw_rule_based_score
    simp only [Option.getD_some]
    have hv := @velocity_term_mono r₁ r₂ h
    linarith [hv]
  · intro td ctx a₁ a₂ h1 hle
    unfold calculate_rule_based_score
    apply min_le_min le_rfl
    unfold raw_rule_based_score
    simp only [Option.getD_some]
    have m1 := @high_amount_term_mono a₁ a₂ hle
    have m2 := @micro_term_eq_zero a₁ h1
    have m3 := @micro_term_eq_zero a₂ (le_trans h1 hle)
    have m5 := @new_user_term_mono (ctx.user_age_days.getD 365) a₁ a₂ hle
    linarith [m1, m2, m3, m5]

/-- C1 (witness): the amended monotonicity applied at velocity counts
3 ≤ 12 and at amounts 1 ≤ 1500 ≤ 20000. -/
theorem claim_C1_witness :
    ((3:ℚ) ≤ 12 ∧
      calculate_rule_based_score tdBase { ctxBase with recent_transactions_1h := some 3 } ≤
        calculate_rule_based_score tdBase { ctxBase with recent_transactions_1h := some 12 }) ∧
    ((1:ℚ) ≤ 1500 ∧ (1500:ℚ) ≤ 20000 ∧
      calculate_rule_based_score { tdBase with amount := some 1500 } ctxBase ≤
        calculate_rule_based_score { tdBase with amount := some 20000 } ctxBase) :=
  ⟨⟨by norm_num, claim_C1_monotonicity_amended.1 tdBase ctxBase 3 12 (by norm_num)⟩,
   ⟨by norm_num, by norm_num,
    claim_C1_monotonicity_amended.2 tdBase ctxBase 1500 20000 (by norm_num) (by norm_num)⟩⟩

/-! ## Claim C6: bounds of the rule-based score -/

/-- C6.  For every `transaction_data` and `transaction_context` (amount
missing, zero, negative, arbitrary velocity counts), the rule-based score
is the clamp `min 1` of a non-negative additive point total, hence lies in
[0, 1]; it is a pure function of its two arguments (no training, no
mutable detector state). -/
theorem claim_C6_rule_score_bounds (td : TransactionData) (ctx : TransactionContext) :
    0 ≤ calculate_rule_based_score td ctx ∧
    calculate_rule_based_score td ctx ≤ 1 ∧
    calculate_rule_based_score td ctx = min 1 (raw_rule_based_score td ctx) ∧
    0 ≤ raw_rule_based_score td ctx := by
  have hraw : 0 ≤ raw_rule_based_score td ctx := by
    simp only [raw_rule_based_score]
    split_ifs <;> norm_num
  exact ⟨le_min (by norm_num) hraw, min_le_left _ _, rfl, hraw⟩

/-! ## Claim C8: noninterference of unrelated fields -/

/-- C8.  The rule-based score reads only `transaction_data['amount']` and
the context keys `recent_transactions_1h`, `is_new_location` and
`user_age_days`: any two input pairs agreeing on those four values get
identical scores, whatever the other transaction and context fields. -/
theorem claim_C8_noninterference (td₁ td₂ : TransactionData)
    (ctx₁ ctx₂ : TransactionContext)
    (ha : td₁.amount = td₂.amount)
    (hr : ctx₁.recent_transactions_1h = ctx₂.recent_transactions_1h)
    (hl : ctx₁.is_new_location = ctx₂.is_new_location)
    (hg : ctx₁.user_age_days = ctx₂.user_age_days) :
    calculate_rule_based_score td₁ ctx₁ = calculate_rule_based_score td₂ ctx₂ := by
  unfold calculate_rule_based_score raw_rule_based_score
  rw [ha, hr, hl, hg]

/-- Transaction record for the C8 witness. -/
def tdA : TransactionData :=
  { transactionId := "tx_A", amount := some 250, timestamp := "2026-01-01T09:00:00Z",
    toWallet := "w1", fromWallet := "w2", currency := "USD-CBDC", metadata := [] }

/-- A transaction agreeing with `tdA` only on the amount. -/
def tdB : TransactionData :=
  { transactionId := "tx_B", amount := some 250, timestamp := "2026-06-30T23:59:59Z",
    toWallet := "w9", fromWallet := "w8", currency := "EUR-CBDC",
    metadata := [("channel", "mobile")] }

/-- Context record for the C8 witness. -/
def ctxA : TransactionContext :=
  { amount := some 250, user_id := "w2", user_age_days := some 30,
    recent_transactions_1h := some 2, is_new_location := some false,
    currency := "USD-CBDC" }

/-- A context agreeing with `ctxA` only on the three keys the scorer
reads; its own `amount` key differs wildly. -/
def ctxB : TransactionContext :=
  { amount := some 999999, user_id := "someone_else", user_age_days := some 30,
    recent_transactions_1h := some 2, is_new_location := some false,
    currency := "EUR-CBDC" }

/-- C8 (witness): two concrete input pairs differing in id, wallets,
currency, timestamp, metadata, user and even the context's own `amount`
key receive the same score. -/
theorem claim_C8_witness :
    (tdA.amount = tdB.amount ∧
     ctxA.recent_transactions_1h = ctxB.recent_transactions_1h ∧
     ctxA.is_new_location = ctxB.is_new_location ∧
     ctxA.user_age_days = ctxB.user_age_days) ∧
    calculate_rule_based_score tdA ctxA = calculate_rule_based_score tdB ctxB :=
  ⟨⟨rfl, rfl, rfl, rfl⟩, claim_C8_noninterference tdA tdB ctxA ctxB rfl rfl rfl rfl⟩

/-! ## Claim C9: the zero-amount boundary -/

/-- C9.  At amount exactly 0 with an otherwise empty context, the
rule-based score takes no micro-amount increment (its guard is
`0 < amount < 1`) and returns 0.0, while `_extract_simple_risk_factors`
still reports the `micro_amount` factor (its guard is `amount < 1`),
whatever the component scores. -/
theorem claim_C9_zero_amount_boundary :
    calculate_rule_based_score td_zero ctx_zero = 0 ∧
    ∀ component_scores : ComponentScores,
      "micro_amount" ∈ extract_simple_risk_factors component_scores ctx_zero := by
  constructor
  · norm_num [calculate_rule_based_score, raw_rule_based_score, td_zero,
      ctx_zero, tdBase, ctxBase]
  · intro component_scores
    norm_num [extract_simple_risk_factors, ctx_zero, ctxBase, List.mem_append]

/-! ## Claim C10: the clamp saturates -/

/-- C10.  At amount 20000, 11 recent transactions, a new location and a
3-day-old account, the raw point total is 1.2 > 1 and the returned score
is exactly 1.0. -/
theorem claim_C10_clamp_saturation :
    1 < raw_rule_based_score td_sat ctx_sat ∧
    raw_rule_based_score td_sat ctx_sat = 6/5 ∧
    calculate_rule_based_score td_sat ctx_sat = 1 := by
  refine ⟨?_, ?_, ?_⟩ <;>
    norm_num [calculate_rule_based_score, raw_rule_based_score, td_sat,
      ctx_sat, tdBase, ctxBase]

/-! ## Claim C2: error escape from `analyze_transaction` -/

/-- The sample analysis request of the integration tests: amount 1500,
a 45-day-old account, 3 recent transactions, known location. -/
def reqSample : TransactionAnalysisRequest :=
  { transactionId := "tx_12345", fromWallet := "wallet_user123",
    toWallet := "wallet_merchant456", amount := 1500, currency := "USD-CBDC",
    timestamp := "2026-10-12T10:00:00Z", uc_user_age_days := some 45,
    uc_recent_transactions_1h := some 3, uc_is_new_location := some false,
    uc_other := [] }

/-- An environment in which every component call succeeds but the risk
engine's `assess_transaction_risk` call raises. -/
def envEngineFails : AnalysisEnv :=
  { behavioral := .returns (3/10), graph := .returns (1/5),
    anomaly := .returns (2/5), riskEngine := .fails }

/-- C2 (counterexample).  A failing step inside `analyze_transaction` —
the risk engine's assessment call raising — does NOT leave the caller
with a neutral risk-assessment result: the outer `except` of lines
253-255 answers with an HTTP 500 error response. -/
theorem claim_C2_counterexample :
    analyze_transaction envEngineFails reqSample =
      AnalysisResponse.httpError 500 "Analysis service error" := rfl

/-- C2 (amended).  Failures of the behavioral, graph and anomaly
components are absorbed by per-component defaults and a `RiskScore`
response is still produced; but when the risk-engine assessment step
itself raises, `analyze_transaction` catches the exception and answers
with an HTTP 500 error response (`"Analysis service error"`) — an error
response, not a neutral assessment, though never a propagated raw
exception. -/
theorem claim_C2_error_paths_amended (env : AnalysisEnv)
    (request : TransactionAnalysisRequest) :
    (env.riskEngine = EngineOutcome.fails ∧
      analyze_transaction env request =
        AnalysisResponse.httpError 500 "Analysis service error") ∨
    (env.riskEngine ≠ EngineOutcome.fails ∧
      ∃ result, analyze_transaction env request = AnalysisResponse.ok result) := by
  obtain ⟨b, g, a, re⟩ := env
  cases re with
  | absent => exact Or.inr ⟨by simp, _, rfl⟩
  | fails => exact Or.inl ⟨rfl, rfl⟩
  | assesses ra => exact Or.inr ⟨by simp, _, rfl⟩

/-! ## Claim C3: independent component defaulting -/

/-- C3.  As long as the risk-engine step itself does not raise: a
behavioral source that is absent or raises contributes exactly its
default 0.5 and a computed behavioral score is passed through untouched;
likewise graph (default 0.1) and anomaly (default 0.15); `rule_based` is
always `_calculate_rule_based_score` of the request; and a complete
`RiskScore` response is returned carrying those (rounded) component
scores. -/
theorem claim_C3_component_defaulting (env : AnalysisEnv)
    (request : TransactionAnalysisRequest)
    (h : env.riskEngine ≠ EngineOutcome.fails) :
    ((env.behavioral = ServiceOutcome.absent ∨ env.behavioral = ServiceOutcome.fails) →
      (component_scores_of env (transaction_data_of request)
        (transaction_context_of request)).behavioral = 1/2) ∧
    (∀ s, env.behavioral = ServiceOutcome.returns s →
      (component_scores_of env (transaction_data_of request)
        (transaction_context_of request)).behavioral = s) ∧
    ((env.graph = ServiceOutcome.absent ∨ env.graph = ServiceOutcome.fails) →
      (component_scores_of env (transaction_data_of request)
        (transaction_context_of request)).graph = 1/10) ∧
    (∀ s, env.graph = ServiceOutcome.returns s →
      (component_scores_of env (transaction_data_of request)
        (transaction_context_of request)).graph = s) ∧
    ((env.anomaly = ServiceOutcome.absent ∨ env.anomaly = ServiceOutcome.fails) →
      (component_scores_of env (transaction_data_of request)
        (transaction_context_of request)).anomaly = 3/20) ∧
    (∀ s, env.anomaly = ServiceOutcome.returns s →
      (component_scores_of env (transaction_data_of request)
        (transaction_context_of request)).anomaly = s) ∧
    (component_scores_of env (transaction_data_of request)
        (transaction_context_of request)).rule_based =
      calculate_rule_based_score (transaction_data_of request)
        (transaction_context_of request) ∧
    ∃ result, analyze_transaction env request = AnalysisResponse.ok result ∧
      result.behavioralScore =
        round3 (component_scores_of env (transaction_data_of request)
          (transaction_context_of request)).behavioral ∧
      result.graphScore =
        round3 (component_scores_of env (transaction_data_of request)
          (transaction_context_of request)).graph ∧
      result.anomalyScore =
        round3 (component_scores_of env (transaction_data_of request)
          (transaction_context_of request)).anomaly := by
  obtain ⟨b, g, a, re⟩ := env
  refine ⟨?_, ?_, ?_, ?_, ?_, ?_, rfl, ?_⟩
  · rintro (rfl | rfl) <;> rfl
  · rintro s rfl; rfl
  · rintro (rfl | rfl) <;> rfl
  · rintro s rfl; rfl
  · rintro (rfl | rfl) <;> rfl
  · rintro s rfl; rfl
  · cases re with
    | absent => exact ⟨_, rfl, rfl, rfl, rfl⟩
    | fails => exact absurd rfl h
    | assesses ra => exact ⟨_, rfl, rfl, rfl, rfl⟩

/-- An environment with a raising behavioral call, a computed graph
score, an absent anomaly service and no risk engine. -/
def envPartial : AnalysisEnv :=
  { behavioral := .fails, graph := .returns (3/10), anomaly := .absent,
    riskEngine := .absent }

/-- C3 (witness): with the behavioral call raising, the graph call
returning 0.3 and the anomaly service absent, behavioral and anomaly take
their defaults, graph keeps its computed value, and a response is still
returned. -/
theorem claim_C3_witness :
    envPartial.riskEngine ≠ EngineOutcome.fails ∧
    (component_scores_of envPartial (transaction_data_of reqSample)
      (transaction_context_of reqSample)).behavioral = 1/2 ∧
    (component_scores_of envPartial (transaction_data_of reqSample)
      (transaction_context_of reqSample)).graph = 3/10 ∧
    (component_scores_of envPartial (transaction_data_of reqSample)
      (transaction_context_of reqSample)).anomaly = 3/20 ∧
    ∃ result, analyze_transaction envPartial reqSample = AnalysisResponse.ok result := by
  have hne : envPartial.riskEngine ≠ EngineOutcome.fails := by simp [envPartial]
  have h := claim_C3_component_defaulting envPartial reqSample hne
  obtain ⟨result, hok, -, -, -⟩ := h.2.2.2.2.2.2.2
  exact ⟨hne, h.1 (Or.inr rfl), h.2.2.2.1 (3/10) rfl, h.2.2.2.2.1 (Or.inl rfl),
    result, hok⟩

/-! ## Claim C4: the default ensemble weighting of the fallback path -/

/-- C4.  When the risk engine is unavailable, the overall score that
`analyze_transaction` computes is exactly
`0.35·behavioral + 0.30·graph + 0.25·anomaly + 0.10·rule_based` over the
collected component scores, and the returned `overallScore` is that value
rounded to three decimals. -/
theorem claim_C4_fallback_weighted_average (env : AnalysisEnv)
    (request : TransactionAnalysisRequest)
    (h : env.riskEngine = EngineOutcome.absent) :
    overall_and_factors env
        (component_scores_of env (transaction_data_of request)
          (transaction_context_of request))
        (transaction_context_of request) =
      some ((35/100) * (component_scores_of env (transaction_data_of request)
              (transaction_context_of request)).behavioral +
            (30/100) * (component_scores_of env (transaction_data_of request)
              (transaction_context_of request)).graph +
            (25/100) * (component_scores_of env (transaction_data_of request)
              (transaction_context_of request)).anomaly +
            (10/100) * (component_scores_of env (transaction_data_of request)
              (transaction_context_of request)).rule_based,
            extract_simple_risk_factors
              (component_scores_of env (transaction_data_of request)
                (transaction_context_of request))
              (transaction_context_of request)) ∧
    ∃ result, analyze_transaction env request = AnalysisResponse.ok result ∧
      result.overallScore =
        round3 ((35/100) * (component_scores_of env (transaction_data_of request)
                  (transaction_context_of request)).behavioral +
                (30/100) * (component_scores_of env (transaction_data_of request)
                  (transaction_context_of request)).graph +
                (25/100) * (component_scores_of env (transaction_data_of request)
                  (transaction_context_of request)).anomaly +
                (10/100) * (component_scores_of env (transaction_data_of request)
                  (transaction_context_of request)).rule_based) := by
  obtain ⟨b, g, a, re⟩ := env
  simp only [AnalysisEnv.riskEngine] at h
  subst h
  constructor
  · simp only [overall_and_factors, fallback_overall, Option.some.injEq, Prod.mk.injEq]
    exact ⟨by ring, trivial⟩
  · refine ⟨_, rfl, ?_⟩
    show round3 (fallback_overall _) = _
    simp only [fallback_overall]
    congr 1
    ring

/-- The all-collaborators-down environment: every service object and the
risk engine are `None`. -/
def envFallback : AnalysisEnv :=
  { behavioral := .absent, graph := .absent, anomaly := .absent,
    riskEngine := .absent }

/-- C4 (witness): with every collaborator absent and the sample request,
the fallback overall score is
0.35·0.5 + 0.30·0.1 + 0.25·0.15 + 0.10·0.1 = 0.2525. -/
theorem claim_C4_witness :
    envFallback.riskEngine = EngineOutcome.absent ∧
    (overall_and_factors envFallback
        (component_scores_of envFallback (transaction_data_of reqSample)
          (transaction_context_of reqSample))
        (transaction_context_of reqSample)).map Prod.fst = some (101/400) := by
  have h := claim_C4_fallback_weighted_average envFallback reqSample rfl
  refine ⟨rfl, ?_⟩
  rw [h.1]
  norm_num [component_scores_of, envFallback, calculate_rule_based_score,
    raw_rule_based_score, transaction_data_of, transaction_context_of, reqSample]

/-! ## Claim C7: cache failures are cache misses -/

/-- C7.  `_get_user_transaction_history` returns the empty history when
the cache client is absent, when the `get` call raises, and when the
cached payload fails to parse; no cache error escapes to the caller. -/
theorem claim_C7_cache_failure_is_miss (decode : String → Option (List ℚ))
    (s : String) :
    get_user_transaction_history decode { client := none } = [] ∧
    get_user_transaction_history decode { client := some CacheGetOutcome.raises } = [] ∧
    (decode s = none →
      get_user_transaction_history decode
        { client := some (CacheGetOutcome.value (some s)) } = []) := by
  refine ⟨rfl, rfl, fun h => ?_⟩
  simp [get_user_transaction_history, h]

/-- C7 (witness): a payload that every decode attempt rejects yields the
empty history. -/
theorem claim_C7_witness :
    (fun _ : String => (none : Option (List ℚ))) "corrupt payload" = none ∧
    get_user_transaction_history (fun _ => none)
      { client := some (CacheGetOutcome.value (some "corrupt payload")) } = [] :=
  ⟨rfl, (claim_C7_cache_failure_is_miss (fun _ => none) "corrupt payload").2.2 rfl⟩

/-! ## Claim C5: the end-to-end high-risk example -/

/-- The spec §8 high-risk example as an analysis request: amount 10000.00
at 03:00 to a never-seen recipient, sender history averaging $100, 0
recent transactions, no other risk context. -/
def reqHighRisk : TransactionAnalysisRequest :=
  { transactionId := "tx_high_risk", fromWallet := "wallet_sender",
    toWallet := "wallet_never_seen", amount := 10000, currency := "USD-CBDC",
    timestamp := "2026-10-12T03:00:00Z", uc_user_age_days := none,
    uc_recent_transactions_1h := some 0, uc_is_new_location := some false,
    uc_other := [("historical_avg_amount", "100")] }

/-- Modelled from the spec: the component scores reaching the
(spec-modelled, `models/risk_engine.py` is not under `src/`) risk engine
for `reqHighRisk` under default configuration — behavioral at its
documented fallback/neutral 0.5 (§6, §8), graph at its pre-state default
0.1 (§4.3), anomaly at the untrained ensemble's 0.5 (§8), and
`rule_based` computed locally by main.py. -/
def csHighRisk : ComponentScores :=
  { behavioral := 1/2, graph := 1/10, anomaly := 1/2,
    rule_based := calculate_rule_based_score (transaction_data_of reqHighRisk)
      (transaction_context_of reqHighRisk) }

/-- C5 (code evaluated at the failing input).  The rule-based score of the
example is only 0.1 (amount 10000.00 fails the strict `> 10000` test and
the scorer ignores the night-time and never-seen-recipient signals); the
spec-modelled default ensemble then yields 0.34, which is not above 0.5
and maps to `approve`, strictly laxer than `flag`; main.py's own fallback
path (risk engine unavailable) yields 0.2525, also not above 0.5. -/
theorem claim_C5_high_risk_example_fails :
    calculate_rule_based_score (transaction_data_of reqHighRisk)
      (transaction_context_of reqHighRisk) = 1/10 ∧
    spec_ensemble_score csHighRisk = 17/50 ∧
    ¬ spec_ensemble_score csHighRisk > 1/2 ∧
    spec_decision (spec_ensemble_score csHighRisk) = TransactionAction.approve ∧
    actionStrictness (spec_decision (spec_ensemble_score csHighRisk)) <
      actionStrictness TransactionAction.flag ∧
    fallback_overall (component_scores_of envFallback
      (transaction_data_of reqHighRisk) (transaction_context_of reqHighRisk)) = 101/400 ∧
    ¬ (101/400 : ℚ) > 1/2 := by
  have hrule : calculate_rule_based_score (transaction_data_of reqHighRisk)
      (transaction_context_of reqHighRisk) = 1/10 := by
    norm_num [calculate_rule_based_score, raw_rule_based_score,
      transaction_data_of, transaction_context_of, reqHighRisk]
  have hens : spec_ensemble_score csHighRisk = 17/50 := by
    norm_num [spec_ensemble_score, csHighRisk, hrule]
  refine ⟨hrule, hens, by rw [hens]; norm_num, ?_, ?_, ?_, by norm_num⟩
  · rw [hens]; norm_num [spec_decision]
  · rw [hens]; norm_num [spec_decision, actionStrictness]
  · norm_num [fallback_overall, component_scores_of, envFallback, hrule]

end EchoPay
